import Mathlib

/-!
Verification development for the DeepResearchAgent repository.

The repository wires LLM-driven agents (DeepSearchAgent.py, main.py,
newAgent.py) around a retrying web-search tool and a REPL chat loop.  This
file shallowly embeds the executable control flow of that code:

* the search tool tavily_search (DeepSearchAgent.py lines 22-48) with its
  3-attempt retry, per-attempt timeout, fixed backoff and fallback data;
* the orchestration pipeline driven by the numbered instruction steps of
  OrchestratorAgent and DataGatherAgent (DeepSearchAgent.py lines 51-63 and
  142-159), with the language model's content-level choices supplied as
  oracle parameters;
* the startup API-key check (DeepSearchAgent.py lines 11-16, identical in
  main.py lines 12-17);
* the two chat-loop variants: DeepSearchAgent.py lines 176-199 (with
  30-second per-turn timeout and a turn-boundary exception handler) and
  main.py lines 98-116 (with neither).

External effects (the network call, awaited sleeps, stdin/stdout, the
SQLite session) are represented as oracles and event traces; durations are
whole seconds as Nat.
-/

/-- One search hit as delivered by the search backend, per the backend
interface search(query, max_results) returning a results list of url/content
records.  The fallback literal in DeepSearchAgent.py lines 37-45 uses exactly
this shape. -/
structure SearchResult where
  url : String
  content : String
deriving DecidableEq

/-- A backend search response: an object with a results list. -/
structure SearchResultSet where
  results : List SearchResult
deriving DecidableEq

/-- A generic JSON value, used to state structural-shape properties about
serialized payloads. -/
inductive Json where
  | str : String → Json
  | num : Int → Json
  | arr : List Json → Json
  | obj : List (String × Json) → Json

/-- JSON string escaping for the two characters json.dumps always escapes in
the payloads at hand. -/
def escapeJsonChar (c : Char) : List Char :=
  if c = '\\' then ['\\', '\\']
  else if c = '"' then ['\\', '"']
  else [c]

/-- Characters of a JSON string literal. -/
def dumpStrChars (s : String) : List Char :=
  '"' :: (s.data.map escapeJsonChar).flatten ++ ['"']

/-- Characters of the json.dumps rendering of one search hit. -/
def SearchResult.dumpChars (r : SearchResult) : List Char :=
  '\x7b' :: (dumpStrChars "url" ++ ':' :: ' ' :: dumpStrChars r.url
    ++ ',' :: ' ' :: dumpStrChars "content" ++ ':' :: ' ' :: dumpStrChars r.content) ++ ['\x7d']

/-- Characters of a comma-separated list of search hits. -/
def dumpResultsChars : List SearchResult → List Char
  | [] => []
  | [r] => r.dumpChars
  | r :: rest => r.dumpChars ++ ',' :: ' ' :: dumpResultsChars rest

/-- The json.dumps rendering of a search response, as returned by
tavily_search on success (line 33) and for the fallback (line 46). -/
def SearchResultSet.dumps (s : SearchResultSet) : String :=
  ⟨'\x7b' :: (dumpStrChars "results" ++ ':' :: ' ' :: '[' :: dumpResultsChars s.results ++ [']']) ++ ['\x7d']⟩

/-- The JSON value of one search hit. -/
def SearchResult.toJson (r : SearchResult) : Json :=
  Json.obj [("url", Json.str r.url), ("content", Json.str r.content)]

/-- The JSON value of a search response. -/
def SearchResultSet.toJson (s : SearchResultSet) : Json :=
  Json.obj [("results", Json.arr (s.results.map SearchResult.toJson))]

/-- Tests that a JSON value is an object with exactly the two string fields
url and content, in that order - the per-entry success shape of the search
backend. -/
def isUrlContentEntry : Json → Bool
  | Json.obj [(k1, Json.str _), (k2, Json.str _)] => k1 == "url" && k2 == "content"
  | _ => false

/-- Tests that a JSON value is an object with a single results field holding
a list of url/content entries - the success shape of a search response. -/
def matchesResultShape : Json → Bool
  | Json.obj [(k, Json.arr entries)] => k == "results" && entries.all isUrlContentEntry
  | _ => false

/-- The string returned after the loop in tavily_search (DeepSearchAgent.py
line 48), which the Orchestrator instruction treats as the search-failure
signal. -/
def networkFailureSentinel : String := "Search failed: Network unreachable"

/-- The fallback data set of tavily_search, transcribed from
DeepSearchAgent.py lines 37-45. -/
def mocked_data : SearchResultSet :=
  ⟨[⟨"https://www.consumerreports.org", "Hybrids save on fuel but EVs save more long-term with $790/year fuel savings and 50% lower maintenance costs."⟩,
    ⟨"https://www.edmunds.com", "EVs offer instant acceleration, 250+ mile range; gas cars refuel faster, better for long trips."⟩,
    ⟨"https://ev-lectron.com", "EVs cost $59,205 vs. gas cars at $48,699. Battery production has emissions, but EVs are cleaner with renewable grids."⟩,
    ⟨"https://climate.mit.edu", "EVs have 40-60% lower lifecycle emissions, equivalent to 88 mpg."⟩,
    ⟨"https://www.epa.gov", "Over 61,000 EV charging stations in 2025 vs. widespread gas stations."⟩]⟩

/-- Externally visible actions of tavily_search: one search attempt (with the
max_results argument and the asyncio.wait_for timeout in seconds), or one
backoff sleep (seconds). -/
inductive ToolEvent where
  | searchAttempt (query : String) (maxResults timeoutSecs : Nat)
  | backoffSleep (secs : Nat)
deriving DecidableEq

/-- Selects search-attempt events. -/
def isAttemptEvent : ToolEvent → Bool
  | ToolEvent.searchAttempt _ _ _ => true
  | ToolEvent.backoffSleep _ => false

/-- The attempt event issued by tavily_search: max_results=5, timeout=10
seconds (DeepSearchAgent.py lines 29-32). -/
def attemptEvent (q : String) : ToolEvent := ToolEvent.searchAttempt q 5 10

/-- The backoff event issued by tavily_search: asyncio.sleep(1)
(DeepSearchAgent.py line 47). -/
def sleepEvent : ToolEvent := ToolEvent.backoffSleep 1

/-- The body of the for-attempt-in-range(3) loop of tavily_search
(DeepSearchAgent.py lines 26-47), over the remaining attempt indices.  The
outcome of each attempt (a response, or failure by exception or timeout) is
given by the oracle.  Returns the function result together with the trace of
attempts and sleeps.  The empty-list case is the post-loop return at line
48. -/
def tavilySearchLoop (oracle : Nat → Option SearchResultSet) (query : String) :
    List Nat → String × List ToolEvent
  | [] => (networkFailureSentinel, [])
  | attempt :: rest =>
    match oracle attempt with
    | some response => (response.dumps, [attemptEvent query])
    | none =>
      if attempt == 2 then
        (SearchResultSet.dumps mocked_data, [attemptEvent query])
      else
        let next := tavilySearchLoop oracle query rest
        (next.1, attemptEvent query :: sleepEvent :: next.2)

/-- The search tool tavily_search (DeepSearchAgent.py lines 22-48): iterate
the attempt loop over range(3). -/
def tavily_search (oracle : Nat → Option SearchResultSet) (query : String) :
    String × List ToolEvent :=
  tavilySearchLoop oracle query [0, 1, 2]

/-- A backend on which every attempt of every search fails (first argument:
search index within a DataGather invocation; second: attempt index). -/
def failingBackend : Nat → Nat → Option SearchResultSet := fun _ _ => none

/-- Joins the raw outputs the DataGather agent collected, one per search, by
newlines; the content-level formatting of the combined raw-results string is
the language model's, the model here keeps every tool output verbatim. -/
def joinLines : List String → String
  | [] => ""
  | [s] => s
  | s :: rest => s ++ "\n" ++ joinLines rest

/-- The tavily_search outputs for a list of (possibly refined) queries, the
search index selecting the backend column. -/
def dataGatherOutputs (backend : Nat → Nat → Option SearchResultSet) :
    Nat → List String → List String
  | _, [] => []
  | i, q :: rest => (tavily_search (backend i) q).1 :: dataGatherOutputs backend (i + 1) rest

/-- Embeds the control flow prescribed by DataGatherAgent's instruction
string (DeepSearchAgent.py lines 51-63): issue one tavily_search call per
provided query, capped at 3 searches, then stop and return all collected raw
results as one string.  The queries (after any content-level refinement by
the model) are an input.  Returns the combined output together with the list
of queries actually searched. -/
def dataGatherRun (backend : Nat → Nat → Option SearchResultSet)
    (queries : List String) : String × List String :=
  let issued := queries.take 3
  (joinLines (dataGatherOutputs backend 0 issued), issued)

/-- The test of Orchestrator instruction step 3 (DeepSearchAgent.py line
148): the data_gather output signals a search failure when it starts with
the text quoted in the instruction. -/
def isSearchFailure (s : String) : Bool :=
  List.isPrefixOf "Search failed".data s.data

/-- The fixed user-facing failure message of Orchestrator instruction step 3
(DeepSearchAgent.py line 148). -/
def unableMessage : String := "Unable to gather data due to network issues. Please try again."

/-- The pipeline stages named by the Orchestrator instruction steps
(DeepSearchAgent.py lines 146-154). -/
inductive Stage where
  | plan
  | gather
  | rate
  | reflect
  | cite
  | synthesize
deriving DecidableEq

/-- Number of occurrences of a stage in a trace. -/
def countStage (st : Stage) (l : List Stage) : Nat :=
  (l.filter (fun s => s == st)).length

/-- The language-model content choices of one Orchestrator turn: the text the
data_gather tool call returned in each cycle (cycle 0 is the initial cycle,
cycle 1 the gap recycle), the gap list the Reflection step reported on the
first cycle, and the synthesized final prose of step 8. -/
structure TurnOracle where
  gatherOut : Nat → String
  gaps1 : List String
  synthesized : String

/-- Embeds the numbered control flow of OrchestratorAgent's instruction
string (DeepSearchAgent.py lines 142-159): step 1 plan; step 2 gather; step 3
short-circuit to the fixed failure message when the gather output signals a
search failure; steps 4-6 rate, reflect, cite; step 7 exactly one additional
cycle when gaps were found; step 8 synthesize.  Returns the final output and
the trace of executed stages. -/
def orchestratorRun (o : TurnOracle) : String × List Stage :=
  let d1 := o.gatherOut 0
  if isSearchFailure d1 then
    (unableMessage, [Stage.plan, Stage.gather])
  else if o.gaps1.isEmpty then
    (o.synthesized, [Stage.plan, Stage.gather, Stage.rate, Stage.reflect, Stage.cite, Stage.synthesize])
  else
    let d2 := o.gatherOut 1
    if isSearchFailure d2 then
      (unableMessage, [Stage.plan, Stage.gather, Stage.rate, Stage.reflect, Stage.cite, Stage.gather])
    else
      (o.synthesized,
        [Stage.plan, Stage.gather, Stage.rate, Stage.reflect, Stage.cite,
         Stage.gather, Stage.rate, Stage.reflect, Stage.cite, Stage.synthesize])

/-- The data_gather output of end-to-end scenario 4: one search on the user
query with the backend failing every attempt. -/
def scenario4Gather : String :=
  (dataGatherRun failingBackend ["compare electric vs gas cars"]).1

/-- The Orchestrator turn of end-to-end scenario 4: every backend attempt
fails, Reflection reports no gaps. -/
def scenario4Turn : TurnOracle :=
  ⟨fun _ => scenario4Gather, [], "EVs and gas cars compared with citations"⟩

/-- ASCII lowercasing of one character, as Python str.lower acts on the
ASCII inputs relevant to the exit test. -/
def lowerChar (c : Char) : Char :=
  if 'A' ≤ c ∧ c ≤ 'Z' then Char.ofNat (c.toNat + 32) else c

/-- ASCII lowercasing of a string, modelling user_input.lower() in the chat
loops. -/
def lowerString (s : String) : String := ⟨s.data.map lowerChar⟩

/-- Outcome of one runner.run invocation on one user input, with its
wall-clock duration in seconds: it either completes with a final output or
raises an exception carrying a message. -/
inductive TurnOutcome where
  | completes (output : String) (durationSecs : Nat)
  | raises (message : String) (durationSecs : Nat)

/-- Wall-clock duration of a runner outcome. -/
def TurnOutcome.duration : TurnOutcome → Nat
  | TurnOutcome.completes _ d => d
  | TurnOutcome.raises _ d => d

/-- Observable actions of a chat loop: a printed line, an invocation of the
runner for one turn, the session being cleared, or an exception escaping the
loop uncaught. -/
inductive ChatEvent where
  | printed (line : String)
  | runnerInvoked (userInput : String)
  | sessionCleared
  | uncaught (message : String)
deriving DecidableEq

/-- Selects uncaught-exception events. -/
def ChatEvent.isUncaughtEvent : ChatEvent → Bool
  | ChatEvent.uncaught _ => true
  | _ => false

/-- Selects runner-invocation events. -/
def ChatEvent.isTurnEvent : ChatEvent → Bool
  | ChatEvent.runnerInvoked _ => true
  | _ => false

/-- Number of turns processed (runner invocations) in a chat trace. -/
def countTurns (l : List ChatEvent) : Nat :=
  (l.filter ChatEvent.isTurnEvent).length

/-- The fixed timeout message of DeepSearchAgent.py line 197. -/
def timeoutMessage : String := "Agent: Request timed out. Please check your network and try again."

/-- The generic error message of DeepSearchAgent.py line 199, with str(e)
interpolated. -/
def errorMessage (m : String) : String :=
  "Agent: Error occurred: " ++ m ++ ". Please try again or check API keys."

/-- The line printed by one turn body of chat_loop in DeepSearchAgent.py
(lines 186-199): runner.run is wrapped in asyncio.wait_for with a 30-second
timeout; on expiry the fixed timeout message is printed, on any other
exception the generic error message, otherwise the final output. -/
def turnPrint (runner : String → TurnOutcome) (inp : String) : String :=
  match runner inp with
  | TurnOutcome.completes out d => if 30 < d then timeoutMessage else "Agent: " ++ out
  | TurnOutcome.raises m d => if 30 < d then timeoutMessage else errorMessage m

/-- The chat loop of DeepSearchAgent.py (lines 176-199) over a stream of
input lines: a line lowercasing to exit prints the goodbye line, clears the
session and terminates; any other line is one runner turn whose outcome is
printed, and the loop continues.  The one-time banner print and session
construction before the loop are elided. -/
def chat_loop (runner : String → TurnOutcome) : List String → List ChatEvent
  | [] => []
  | inp :: rest =>
    if lowerString inp == "exit" then
      [ChatEvent.printed "Goodbye!", ChatEvent.sessionCleared]
    else
      ChatEvent.runnerInvoked inp :: ChatEvent.printed (turnPrint runner inp) ::
        chat_loop runner rest

/-- The chat loop of main.py (lines 98-116): same exit test, but runner.run
is awaited with no timeout and no try/except, so a raising turn escapes the
loop uncaught and a completing turn is printed whatever its duration. -/
def chat_loop_main (runner : String → TurnOutcome) : List String → List ChatEvent
  | [] => []
  | inp :: rest =>
    if lowerString inp == "exit" then
      [ChatEvent.printed "Goodbye!", ChatEvent.sessionCleared]
    else
      match runner inp with
      | TurnOutcome.completes out _ =>
          ChatEvent.runnerInvoked inp :: ChatEvent.printed ("Agent: " ++ out) ::
            chat_loop_main runner rest
      | TurnOutcome.raises m _ =>
          [ChatEvent.runnerInvoked inp, ChatEvent.uncaught m]

/-- A runner that always completes immediately. -/
def constRunner : String → TurnOutcome := fun _ => TurnOutcome.completes "ok" 1

/-- Python truthiness of an optional environment string: None and the empty
string are falsy. -/
def pyTruthy : Option String → Bool
  | none => false
  | some s => !(s == "")

/-- The two environment lookups feeding the startup check
(DeepSearchAgent.py lines 11-12; identically main.py lines 12-13). -/
structure StartupEnv where
  gemini : Option String
  tavily : Option String

/-- The startup key check of DeepSearchAgent.py lines 15-16: raise
ValueError("API KEY MISSING") when either looked-up key is falsy. -/
def startupCheck (env : StartupEnv) : Except String Unit :=
  if !(pyTruthy env.gemini) || !(pyTruthy env.tavily) then Except.error "API KEY MISSING"
  else Except.ok ()

/-- Whole-program run: the startup check executes at import time, before the
chat loop processes any turn; a startup error aborts with no chat events. -/
def runProgram (env : StartupEnv) (runner : String → TurnOutcome)
    (inputs : List String) : Except String (List ChatEvent) :=
  match startupCheck env with
  | Except.error e => Except.error e
  | Except.ok _ => Except.ok (chat_loop runner inputs)

/-- Helper: a serialized search response always begins with an opening
brace. -/
theorem dumps_head (s : SearchResultSet) :
    (SearchResultSet.dumps s).data.head? = some '\x7b' := rfl

/-- Helper: a serialized search response is never the post-loop sentinel
string. -/
theorem dumps_beq_sentinel (s : SearchResultSet) :
    (SearchResultSet.dumps s == networkFailureSentinel) = false := by
  rw [Bool.eq_false_iff]
  intro hb
  have h := eq_of_beq hb
  have h1 : (SearchResultSet.dumps s).data.head? = networkFailureSentinel.data.head? := by
    rw [h]
  rw [dumps_head] at h1
  exact absurd h1 (by decide)

/-- Helper: full case characterization of tavily_search over the outcomes of
the three attempts. -/
theorem tavily_search_eq (oracle : Nat → Option SearchResultSet) (query : String) :
    tavily_search oracle query =
      match oracle 0 with
      | some r => (SearchResultSet.dumps r, [attemptEvent query])
      | none =>
        match oracle 1 with
        | some r => (SearchResultSet.dumps r,
            [attemptEvent query, sleepEvent, attemptEvent query])
        | none =>
          match oracle 2 with
          | some r => (SearchResultSet.dumps r,
              [attemptEvent query, sleepEvent, attemptEvent query, sleepEvent, attemptEvent query])
          | none => (SearchResultSet.dumps mocked_data,
              [attemptEvent query, sleepEvent, attemptEvent query, sleepEvent, attemptEvent query]) := by
  cases h0 : oracle 0 <;> cases h1 : oracle 1 <;> cases h2 : oracle 2 <;>
    simp [tavily_search, tavilySearchLoop, h0, h1, h2]

/-- C2: tavily_search attempts the external search at most 3 times, every
attempt carries the independent 10-second timeout, after each failing
non-final attempt exactly one fixed 1-second backoff sleep occurs before the
retry, on the third consecutive failure the fixed fallback data set is
returned, and in every case the tool returns a serialized result set rather
than raising. -/
theorem tavily_search_retry_policy (oracle : Nat → Option SearchResultSet) (query : String) :
    (((tavily_search oracle query).2.filter isAttemptEvent).length ≤ 3) ∧
    (∃ rs : SearchResultSet, (tavily_search oracle query).1 = SearchResultSet.dumps rs) ∧
    ((∃ r, oracle 0 = some r ∧
        tavily_search oracle query = (SearchResultSet.dumps r, [attemptEvent query])) ∨
     (oracle 0 = none ∧ ∃ r, oracle 1 = some r ∧
        tavily_search oracle query = (SearchResultSet.dumps r,
          [attemptEvent query, sleepEvent, attemptEvent query])) ∨
     (oracle 0 = none ∧ oracle 1 = none ∧ ∃ r, oracle 2 = some r ∧
        tavily_search oracle query = (SearchResultSet.dumps r,
          [attemptEvent query, sleepEvent, attemptEvent query, sleepEvent, attemptEvent query])) ∨
     (oracle 0 = none ∧ oracle 1 = none ∧ oracle 2 = none ∧
        tavily_search oracle query = (SearchResultSet.dumps mocked_data,
          [attemptEvent query, sleepEvent, attemptEvent query, sleepEvent, attemptEvent query]))) := by
  have he := tavily_search_eq oracle query
  cases h0 : oracle 0 with
  | some r =>
    rw [h0] at he
    exact ⟨by rw [he]; simp [isAttemptEvent, attemptEvent],
           ⟨r, by rw [he]⟩, Or.inl ⟨r, rfl, he⟩⟩
  | none =>
    rw [h0] at he
    cases h1 : oracle 1 with
    | some r =>
      rw [h1] at he
      exact ⟨by rw [he]; simp [isAttemptEvent, attemptEvent, sleepEvent],
             ⟨r, by rw [he]⟩, Or.inr (Or.inl ⟨rfl, r, rfl, he⟩)⟩
    | none =>
      rw [h1] at he
      cases h2 : oracle 2 with
      | some r =>
        rw [h2] at he
        exact ⟨by rw [he]; simp [isAttemptEvent, attemptEvent, sleepEvent],
               ⟨r, by rw [he]⟩, Or.inr (Or.inr (Or.inl ⟨rfl, rfl, r, rfl, he⟩))⟩
      | none =>
        rw [h2] at he
        exact ⟨by rw [he]; simp [isAttemptEvent, attemptEvent, sleepEvent],
               ⟨mocked_data, by rw [he]⟩, Or.inr (Or.inr (Or.inr ⟨rfl, rfl, rfl, he⟩))⟩

/-- C4: the post-loop sentinel return of tavily_search is unreachable - for
every oracle and query, the tool output differs from the sentinel string the
Orchestrator short-circuit branch tests for. -/
theorem tavily_search_never_sentinel (oracle : Nat → Option SearchResultSet) (query : String) :
    ((tavily_search oracle query).1 == networkFailureSentinel) = false := by
  have he := tavily_search_eq oracle query
  cases h0 : oracle 0 with
  | some r => rw [h0] at he; rw [he]; exact dumps_beq_sentinel r
  | none =>
    rw [h0] at he
    cases h1 : oracle 1 with
    | some r => rw [h1] at he; rw [he]; exact dumps_beq_sentinel r
    | none =>
      rw [h1] at he
      cases h2 : oracle 2 with
      | some r => rw [h2] at he; rw [he]; exact dumps_beq_sentinel r
      | none => rw [h2] at he; rw [he]; exact dumps_beq_sentinel mocked_data

/-- C1: per user turn the Orchestrator executes at most 2 GATHER cycles (the
initial cycle plus at most one gap recycle), and a DataGather invocation
issues at most 3 search calls. -/
theorem orchestrator_cycle_bounds (o : TurnOracle) :
    countStage Stage.gather (orchestratorRun o).2 ≤ 2 ∧
    ∀ (backend : Nat → Nat → Option SearchResultSet) (queries : List String),
      (dataGatherRun backend queries).2.length ≤ 3 := by
  constructor
  · cases hf1 : isSearchFailure (o.gatherOut 0) with
    | true => simp [orchestratorRun, hf1, countStage]
    | false =>
      cases hg : o.gaps1.isEmpty with
      | true => simp [orchestratorRun, hf1, hg, countStage]
      | false =>
        cases hf2 : isSearchFailure (o.gatherOut 1) with
        | true => simp [orchestratorRun, hf1, hg, hf2, countStage]
        | false => simp [orchestratorRun, hf1, hg, hf2, countStage]
  · intro backend queries
    simp only [dataGatherRun, List.length_take]
    exact min_le_left _ _

/-- Helper: with the search-failure test true on the first cycle the
Orchestrator run is the short-circuit. -/
theorem orchestratorRun_failure (o : TurnOracle)
    (h : isSearchFailure (o.gatherOut 0) = true) :
    orchestratorRun o = (unableMessage, [Stage.plan, Stage.gather]) := by
  simp [orchestratorRun, h]

/-- C3 (amended): when the data_gather output of the first cycle signals a
search failure, the Orchestrator short-circuits the turn to the fixed
user-facing failure message and terminates with only the PLAN and GATHER
stages executed - no RATE, REFLECT, CITE or SYNTHESIZE stage runs. -/
theorem orchestrator_short_circuit (o : TurnOracle)
    (h : isSearchFailure (o.gatherOut 0) = true) :
    orchestratorRun o = (unableMessage, [Stage.plan, Stage.gather]) ∧
    countStage Stage.rate (orchestratorRun o).2 = 0 ∧
    countStage Stage.reflect (orchestratorRun o).2 = 0 ∧
    countStage Stage.cite (orchestratorRun o).2 = 0 ∧
    countStage Stage.synthesize (orchestratorRun o).2 = 0 := by
  have he := orchestratorRun_failure o h
  refine ⟨he, ?_, ?_, ?_, ?_⟩ <;> rw [he] <;> decide

/-- Witness for C3 (amended): a turn whose first data_gather output is the
sentinel short-circuits to the fixed failure message. -/
theorem orchestrator_short_circuit_witness :
    orchestratorRun (TurnOracle.mk (fun _ => networkFailureSentinel) [] "synth") =
      (unableMessage, [Stage.plan, Stage.gather]) :=
  (orchestrator_short_circuit (TurnOracle.mk (fun _ => networkFailureSentinel) [] "synth")
    (by decide)).1

/-- C3 counterexample (end-to-end scenario 4): with the backend failing all 3
attempts of the single first-cycle search, tavily_search returns the
serialized fallback data set, the data_gather output does not signal a search
failure, and the turn proceeds to the SYNTHESIZE stage with a final output
different from the fixed failure message - the claimed abort does not
happen. -/
theorem scenario4_reaches_synthesize :
    (tavily_search (failingBackend 0) "compare electric vs gas cars").1 =
      SearchResultSet.dumps mocked_data ∧
    isSearchFailure scenario4Gather = false ∧
    Stage.synthesize ∈ (orchestratorRun scenario4Turn).2 ∧
    (orchestratorRun scenario4Turn).1 ≠ unableMessage := by
  refine ⟨rfl, rfl, ?_, ?_⟩ <;> decide

/-- Helper: every JSON rendering of a backend search hit passes the
url/content entry shape test. -/
theorem isUrlContentEntry_toJson (r : SearchResult) :
    isUrlContentEntry (SearchResult.toJson r) = true := rfl

/-- Helper: every list of rendered search hits passes the entry shape test
elementwise. -/
theorem all_map_toJson (l : List SearchResult) :
    (l.map SearchResult.toJson).all isUrlContentEntry = true := by
  induction l with
  | nil => rfl
  | cons r rest ih => simp [List.all_cons, isUrlContentEntry_toJson, ih]

/-- C6: the fallback data set structurally matches the normal success shape:
it is an object with a results field holding entries that each have exactly
the url and content string fields, and every backend success response has
that same shape, so downstream parsing never branches on real versus
fallback data. -/
theorem fallback_shape_matches_success :
    matchesResultShape (SearchResultSet.toJson mocked_data) = true ∧
    ∀ s : SearchResultSet, matchesResultShape (SearchResultSet.toJson s) = true := by
  have hall : ∀ s : SearchResultSet, matchesResultShape (SearchResultSet.toJson s) = true := by
    intro s
    show (("results" == "results") && (s.results.map SearchResult.toJson).all isUrlContentEntry) = true
    simp [all_map_toJson]
  exact ⟨hall mocked_data, hall⟩

/-- Helper: the DeepSearchAgent chat loop never lets an exception escape:
its trace contains no uncaught event. -/
theorem chat_loop_no_uncaught (runner : String → TurnOutcome) (inputs : List String) :
    ((chat_loop runner inputs).all fun e => !(ChatEvent.isUncaughtEvent e)) = true := by
  induction inputs with
  | nil => rfl
  | cons inp rest ih =>
    cases hx : (lowerString inp == "exit") with
    | true => simp [chat_loop, hx, ChatEvent.isUncaughtEvent]
    | false =>
      have hstep : chat_loop runner (inp :: rest) =
          ChatEvent.runnerInvoked inp :: ChatEvent.printed (turnPrint runner inp) ::
            chat_loop runner rest := by
        simp [chat_loop, hx]
      rw [hstep, List.all_cons, List.all_cons, ih]
      rfl

/-- C5 (amended): in the DeepSearchAgent.py chat loop no exception crosses
the turn boundary - the trace never contains an uncaught event, and a turn
whose runner raises within the 30-second budget prints the generic error
message and the loop continues with the next turn.  (The counterexample
shows the main.py chat loop violates the original claim.) -/
theorem chat_loop_catches_turn_errors (runner : String → TurnOutcome)
    (inputs : List String) (inp : String) (rest : List String) (m : String) (d : Nat)
    (hr : runner inp = TurnOutcome.raises m d) (hd : d ≤ 30)
    (hx : (lowerString inp == "exit") = false) :
    ((chat_loop runner inputs).all fun e => !(ChatEvent.isUncaughtEvent e)) = true ∧
    chat_loop runner (inp :: rest) =
      ChatEvent.runnerInvoked inp :: ChatEvent.printed (errorMessage m) ::
        chat_loop runner rest := by
  refine ⟨chat_loop_no_uncaught runner inputs, ?_⟩
  have hnd : ¬ 30 < d := by omega
  simp [chat_loop, hx, turnPrint, hr, hnd]

/-- Witness for C5 (amended): a raising turn in the DeepSearchAgent loop is
reported as an error line and no uncaught event occurs. -/
theorem chat_loop_catches_turn_errors_witness :
    ((chat_loop (fun _ => TurnOutcome.raises "boom" 1) ["hi"]).all
      fun e => !(ChatEvent.isUncaughtEvent e)) = true ∧
    chat_loop (fun _ => TurnOutcome.raises "boom" 1) ["hi"] =
      [ChatEvent.runnerInvoked "hi", ChatEvent.printed (errorMessage "boom")] := by
  have h := chat_loop_catches_turn_errors (fun _ => TurnOutcome.raises "boom" 1)
    ["hi"] "hi" [] "boom" 1 rfl (by omega) (by decide)
  exact ⟨h.1, by rw [h.2]; rfl⟩

/-- C5 counterexample: in the main.py chat loop an exception raised while
processing a turn escapes the loop uncaught, so the original claim fails on
the code. -/
theorem chat_loop_main_uncaught :
    chat_loop_main (fun _ => TurnOutcome.raises "boom" 1) ["hi"] =
      [ChatEvent.runnerInvoked "hi", ChatEvent.uncaught "boom"] ∧
    ChatEvent.uncaught "boom" ∈ chat_loop_main (fun _ => TurnOutcome.raises "boom" 1) ["hi"] := by
  refine ⟨?_, ?_⟩ <;> decide

/-- C7 (amended): in the DeepSearchAgent.py chat loop a turn whose runner
exceeds the 30-second wall-clock budget is abandoned - the fixed timeout
message is printed instead of any result and the loop continues with the
remaining inputs.  (The counterexample shows the main.py chat loop imposes no
such timeout.) -/
theorem chat_loop_turn_timeout (runner : String → TurnOutcome)
    (inp : String) (rest : List String)
    (hd : 30 < (runner inp).duration)
    (hx : (lowerString inp == "exit") = false) :
    chat_loop runner (inp :: rest) =
      ChatEvent.runnerInvoked inp :: ChatEvent.printed timeoutMessage ::
        chat_loop runner rest := by
  cases h : runner inp with
  | completes out d =>
    have hd' : 30 < d := by rw [h] at hd; exact hd
    simp [chat_loop, hx, turnPrint, h, hd']
  | raises m d =>
    have hd' : 30 < d := by rw [h] at hd; exact hd
    simp [chat_loop, hx, turnPrint, h, hd']

/-- Witness for C7 (amended): a 31-second turn prints the timeout message and
the loop goes on. -/
theorem chat_loop_turn_timeout_witness :
    chat_loop (fun _ => TurnOutcome.completes "late answer" 31) ["q"] =
      [ChatEvent.runnerInvoked "q", ChatEvent.printed timeoutMessage] := by
  have h := chat_loop_turn_timeout (fun _ => TurnOutcome.completes "late answer" 31)
    "q" [] (by decide) (by decide)
  rw [h]
  rfl

/-- C7 counterexample: in the main.py chat loop a turn lasting 100 seconds is
not abandoned - its result is surfaced and no timeout message appears, so the
original claim fails on the code. -/
theorem chat_loop_main_no_timeout :
    chat_loop_main (fun _ => TurnOutcome.completes "slow answer" 100) ["q"] =
      [ChatEvent.runnerInvoked "q", ChatEvent.printed "Agent: slow answer"] ∧
    ChatEvent.printed timeoutMessage ∉
      chat_loop_main (fun _ => TurnOutcome.completes "slow answer" 100) ["q"] := by
  refine ⟨?_, ?_⟩ <;> decide

/-- C9 (amended): reading the literal line exit prints the goodbye line,
clears the session, terminates the loop with no turn processed; any other
line whose lowercasing is not exit is exactly one processed turn.  (The
counterexample shows the original claim fails for the line EXIT.) -/
theorem chat_loop_exit_semantics (runner : String → TurnOutcome)
    (inp : String) (rest : List String)
    (hx : (lowerString inp == "exit") = false) :
    chat_loop runner ("exit" :: rest) =
      [ChatEvent.printed "Goodbye!", ChatEvent.sessionCleared] ∧
    chat_loop runner (inp :: rest) =
      ChatEvent.runnerInvoked inp :: ChatEvent.printed (turnPrint runner inp) ::
        chat_loop runner rest ∧
    countTurns (chat_loop runner (inp :: rest)) = countTurns (chat_loop runner rest) + 1 := by
  have hexit : (lowerString "exit" == "exit") = true := by decide
  refine ⟨by simp [chat_loop, hexit], by simp [chat_loop, hx], ?_⟩
  simp [chat_loop, hx, countTurns, ChatEvent.isTurnEvent, List.filter]

/-- Witness for C9 (amended): the line hello is one processed turn, the line
exit terminates with none. -/
theorem chat_loop_exit_semantics_witness :
    chat_loop constRunner ("exit" :: []) =
      [ChatEvent.printed "Goodbye!", ChatEvent.sessionCleared] ∧
    countTurns (chat_loop constRunner ["hello"]) = countTurns (chat_loop constRunner []) + 1 := by
  have h := chat_loop_exit_semantics constRunner "hello" [] (by decide)
  exact ⟨h.1, h.2.2⟩

/-- C9 counterexample: the input line EXIT differs from the literal exit, yet
the chat loop terminates on it, clears the session and processes no turn -
refuting that every non-exit line is one processed turn. -/
theorem chat_loop_uppercase_exit_no_turn :
    ("EXIT" == "exit") = false ∧
    chat_loop constRunner ["EXIT"] = [ChatEvent.printed "Goodbye!", ChatEvent.sessionCleared] ∧
    countTurns (chat_loop constRunner ["EXIT"]) = 0 := by
  refine ⟨?_, ?_, ?_⟩ <;> decide

/-- C10: the exit test is case-insensitive - any input line whose lowercasing
equals exit terminates the loop, clears the session and processes no
turn. -/
theorem chat_loop_exit_case_insensitive (runner : String → TurnOutcome)
    (inp : String) (rest : List String) (h : lowerString inp = "exit") :
    chat_loop runner (inp :: rest) =
      [ChatEvent.printed "Goodbye!", ChatEvent.sessionCleared] ∧
    countTurns (chat_loop runner (inp :: rest)) = 0 := by
  have hb : (lowerString inp == "exit") = true := by rw [h]; decide
  constructor <;> simp [chat_loop, hb, countTurns, ChatEvent.isTurnEvent]

/-- Witness for C10: the line EXIT (uppercase) terminates the loop with the
session cleared and no turn processed. -/
theorem chat_loop_exit_case_insensitive_witness :
    chat_loop constRunner ("EXIT" :: ["later line"]) =
      [ChatEvent.printed "Goodbye!", ChatEvent.sessionCleared] ∧
    countTurns (chat_loop constRunner ("EXIT" :: ["later line"])) = 0 :=
  chat_loop_exit_case_insensitive constRunner "EXIT" ["later line"] (by decide)

/-- C8 (amended): if either API key lookup is absent (or, as the
counterexample forces, present but empty) the program aborts at startup with
the fatal API KEY MISSING error before any turn is processed; if both keys
are present and non-empty, startup proceeds and the chat loop runs with no
such error. -/
theorem startup_requires_nonempty_keys (env : StartupEnv)
    (runner : String → TurnOutcome) (inputs : List String) :
    ((env.gemini = none ∨ env.tavily = none) →
      runProgram env runner inputs = Except.error "API KEY MISSING") ∧
    (pyTruthy env.gemini = true → pyTruthy env.tavily = true →
      runProgram env runner inputs = Except.ok (chat_loop runner inputs)) := by
  constructor
  · intro h
    rcases h with h | h <;>
      simp [runProgram, startupCheck, pyTruthy, h]
  · intro hg ht
    simp [runProgram, startupCheck, hg, ht]

/-- Witness for C8 (amended): a missing key aborts startup; two non-empty
keys start the loop. -/
theorem startup_requires_nonempty_keys_witness :
    runProgram (StartupEnv.mk none (some "tvly-key")) constRunner [] =
      Except.error "API KEY MISSING" ∧
    runProgram (StartupEnv.mk (some "gem-key") (some "tvly-key")) constRunner [] =
      Except.ok (chat_loop constRunner []) := by
  refine ⟨(startup_requires_nonempty_keys _ constRunner []).1 (Or.inl rfl),
          (startup_requires_nonempty_keys _ constRunner []).2 (by decide) (by decide)⟩

/-- C8 counterexample: with the LLM key present in the environment but empty
and the search key present and non-empty, both keys are present yet startup
raises the fatal error - refuting that presence of both keys suffices. -/
theorem startup_empty_key_rejected :
    (StartupEnv.mk (some "") (some "tvly-key")).gemini.isSome = true ∧
    (StartupEnv.mk (some "") (some "tvly-key")).tavily.isSome = true ∧
    startupCheck (StartupEnv.mk (some "") (some "tvly-key")) =
      Except.error "API KEY MISSING" := by
  exact ⟨rfl, rfl, rfl⟩
